import Mathlib

/-!
Shallow embedding of the a1fs extent-based file system (src/fs_utils.c,
src/a1fs.c, src/mkfs.c, src/fs_ctx.c) for checking the natural-language
specification against the source.

Modelling conventions:
* Machine integers are Nat / Int; where the C code can wrap (uint32_t and
  uint64_t arithmetic) the wrap is made explicit with u32i / u64i.
* The mapped image is modelled as a record of typed views, mirroring fs_ctx:
  the superblock, the data-block bitmap (a list of bits, one per data block,
  indexed like bit i of the bitmap bytes), the inode table (a total function
  from slot index to inode record), the data region as a flat byte function
  (addresses are byte offsets from the start of the data region, so a copy
  that runs past a block boundary lands in the following data-region bytes,
  exactly as in the mapped image), and a directory-entry view of data blocks
  (block index -> slot 0..15 -> entry).  The directory-entry view and the
  flat byte view model the two ways the source casts data blocks; no claim
  below depends on aliasing between the two.
* The extent storage of an inode (10 inline records plus records spilled
  into the indirect extent block) is modelled as one total function from
  extent index to record, matching get_extent in fs_utils.c, which hides
  the direct/indirect split from every caller.
* C strings (paths, entry names) are lists of characters; the NUL sentinel
  of an empty dentry name is the empty list.
* The real-time clock always succeeds and is passed in as a Nat (the source
  only fails on clock_gettime failure, which no claim concerns), and malloc
  always succeeds.
* while loops whose bound is not structural take explicit fuel; every
  concrete evaluation below uses fuel far above the loop's real trip count,
  and the universally quantified theorem about allocate_data_blocks holds
  for every fuel value.
-/

/-- Block size in bytes (A1FS_BLOCK_SIZE in a1fs.h). -/
def A1FS_BLOCK_SIZE : Nat := 4096

/-- Modelled from the spec: a1fs.h is not under src/.  Maximum name length,
including the NUL terminator (spec section 3: NAME_MAX = 252 including
terminator; a directory entry is 256 bytes = 4-byte inode number + 252-byte
name field). -/
def A1FS_NAME_MAX : Nat := 252

/-- Modelled from the spec: number of inline extent records per inode
(spec section 3: inline extent array of fixed capacity K = 10). -/
def A1FS_NUM_DIRECT_EXTENT : Nat := 10

/-- Modelled from the spec: directory entries per block (256-byte entries in
a 4096-byte block). -/
def NUM_DENTRY_PER_BLOCK : Nat := 16

/-- Modelled from the spec: inode record size in bytes (spec section 3:
fixed size, e.g. 256 bytes so NUM_INODES_PER_BLOCK = 16). -/
def SIZEOF_A1FS_INODE : Nat := 256

/-- Magic sentinel of the superblock (exact value immaterial to the claims). -/
def A1FS_MAGIC : Nat := 0xA1A1A1A1

/-- POSIX errno values used by the source. -/
def ENOENT : Int := 2
def ENOTDIR : Int := 20
def ENOSPC : Int := 28
def ENAMETOOLONG : Int := 36
def ENOMEM : Int := 12

/-- File-type bits of st_mode (sys/stat.h). -/
def S_IFMT : Nat := 0xF000
def S_IFDIR : Nat := 0x4000
def S_IFREG : Nat := 0x8000

/-- The S_ISDIR test from sys/stat.h: (m and S_IFMT) == S_IFDIR. -/
def S_ISDIR (m : Nat) : Bool := m &&& S_IFMT == S_IFDIR

/-- Reduce an integer to uint32_t range, as C assignment/arithmetic does. -/
def u32i (i : Int) : Nat := (i % (4294967296 : Int)).toNat

/-- Reduce an integer to uint64_t range, as C assignment/arithmetic does. -/
def u64i (i : Int) : Nat := (i % (18446744073709551616 : Int)).toNat

/-- Modelled from the spec: the Ceil macro of util.h (not under src/) is
ceiling division, as in the layout formulas of spec section 3. -/
def ceilNat (a b : Nat) : Nat := (a + b - 1) / b

/-- An extent record: a contiguous run of data blocks (a1fs_extent). -/
structure A1fsExtent where
  start : Nat := 0
  count : Nat := 0
deriving DecidableEq

/-- An inode record (a1fs_inode).  extents unifies the inline array and the
indirect-block records exactly as get_extent presents them to callers. -/
structure A1fsInode where
  mode : Nat := 0
  links : Nat := 0
  size : Nat := 0
  mtime : Nat := 0
  num_extents : Nat := 0
  extents : Nat → A1fsExtent := fun _ => {}
  indirect_extent_blk : Nat := 0

/-- The superblock (a1fs_superblock). -/
structure A1fsSuperblock where
  magic : Nat := 0
  size : Nat := 0
  num_inodes : Nat := 0
  num_free_inodes : Nat := 0
  num_tot_dblocks : Nat := 0
  num_free_dblocks : Nat := 0
  data_bitmap : Nat := 0
  inode_table : Nat := 0
  data_blk : Nat := 0

/-- A directory entry (a1fs_dentry): inode number and name; an empty name
is the zeroed first byte that marks a free slot. -/
structure A1fsDentry where
  ino : Nat := 0
  name : List Char := []

/-- The mounted image, as the typed views of fs_ctx. -/
structure FsState where
  superblock : A1fsSuperblock
  d_bitmap : List Bool
  inode_table : Nat → A1fsInode
  data : Int → Nat
  dentries : Nat → Nat → A1fsDentry

/-- Replace inode slot i of the inode table. -/
def setInode (i : Nat) (v : A1fsInode) (fs : FsState) : FsState :=
  { fs with inode_table := fun j => if j = i then v else fs.inode_table j }

/-- Apply a function to the data-block bitmap. -/
def mapBitmap (f : List Bool → List Bool) (fs : FsState) : FsState :=
  { fs with d_bitmap := f fs.d_bitmap }

/-- Add a (possibly negative) delta to superblock.num_free_dblocks with
uint32_t wrap-around, covering the += and -= of the source. -/
def adjustFreeDblocks (d : Int) (fs : FsState) : FsState :=
  { fs with superblock :=
      { fs.superblock with
        num_free_dblocks := u32i ((fs.superblock.num_free_dblocks : Int) + d) } }

/-- Set bit b of the bitmap (out-of-range writes, undefined in C, are no-ops). -/
def setBit (bm : List Bool) (b : Nat) : List Bool := bm.set b true

/-- Clear bit b of the bitmap. -/
def clearBit (bm : List Bool) (b : Nat) : List Bool := bm.set b false

/-- Set bits [start, start+count) of the bitmap; negative bounds (undefined
in C) clamp to zero. -/
def markRange (bm : List Bool) (start count : Int) : List Bool :=
  (List.range count.toNat).foldl (fun acc j => setBit acc (start.toNat + j)) bm

/-- Replace one directory-entry slot. -/
def setDentry (blk slot : Nat) (d : A1fsDentry) (fs : FsState) : FsState :=
  { fs with dentries := fun b s =>
      if b = blk ∧ s = slot then d else fs.dentries b s }

/-- Number of 0 bits in the data bitmap (the quantity P1 compares with
superblock.num_free_dblocks). -/
def countZeroBits (bm : List Bool) : Nat := (bm.filter (fun b => b = false)).length

/-- Number of inode slots with link count 0 (the quantity P1 compares with
superblock.num_free_inodes). -/
def countFreeInodes (fs : FsState) : Nat :=
  ((List.range fs.superblock.num_inodes).filter
    (fun i => (fs.inode_table i).links == 0)).length

/-- The P1 accounting invariant of the spec, as a decidable check. -/
def p1_invariant (fs : FsState) : Bool :=
  countZeroBits fs.d_bitmap == fs.superblock.num_free_dblocks &&
  countFreeInodes fs == fs.superblock.num_free_inodes

/-- First character of a C string; reading the terminator of an empty
string yields the NUL character. -/
def cstrHead (s : List Char) : Char := s.headD (Char.ofNat 0)

/-- find_empty_inode (fs_utils.c): first inode slot with 0 links, else -1. -/
def find_empty_inode (fs : FsState) : Int :=
  match (List.range fs.superblock.num_inodes).find?
      (fun i => (fs.inode_table i).links == 0) with
  | some i => (i : Int)
  | none => -1

/-- init_inode (fs_utils.c): reset the record, stamp the clock, and account
one fewer free inode.  The clock is modelled as always succeeding. -/
def init_inode (index mode links : Nat) (now : Nat) (fs : FsState) : FsState :=
  let fs1 := setInode index
    { mode := mode, links := links, size := 0, mtime := now,
      num_extents := 0, extents := fun _ => {}, indirect_extent_blk := 0 } fs
  { fs1 with superblock :=
      { fs1.superblock with
        num_free_inodes := u32i ((fs1.superblock.num_free_inodes : Int) - 1) } }

/-- Components of a path, split on the separator with empty components
dropped, as the strtok loop of path_lookup produces them. -/
def splitPath (path : List Char) : List (List Char) :=
  go path []
where
  go : List Char → List Char → List (List Char)
  | [], acc => if acc = [] then [] else [acc.reverse]
  | c :: rest, acc =>
      if c = '/' then
        if acc = [] then go rest [] else acc.reverse :: go rest []
      else go rest (c :: acc)

/-- get_extent (fs_utils.c): the i-th extent record of an inode; the
direct (i < 10) and indirect (i >= 10) storage is unified in the model,
exactly as this accessor unifies it for every caller. -/
def get_extent (inode : A1fsInode) (i : Nat) : A1fsExtent := inode.extents i

/-- The data blocks of an inode in file order, as traversed by
block_iterator_init / block_iterator_next_blk (fs_utils.c): the blocks of
extents 0 .. num_extents-1, each extent contributing count consecutive
blocks from its start. -/
def inodeBlocks (inode : A1fsInode) : List Nat :=
  (List.range inode.num_extents).flatMap (fun i =>
    (List.range (get_extent inode i).count).map (fun j => (get_extent inode i).start + j))

/-- path_lookup (fs_utils.c): resolve an absolute path to an inode number,
or a negated errno.  The source copies the path into a PATH_MAX buffer
first (truncation does not affect the first character) and performs no
store to the image, so the model is a pure reader of the state. -/
def path_lookup (path : List Char) (fs : FsState) : Int :=
  if cstrHead path ≠ '/' then -ENOENT
  else go (splitPath path) 0
where
  scanComponent (fs : FsState) (inode : A1fsInode) (comp : List Char) : Int :=
    (inodeBlocks inode).foldl (fun cur blk =>
      (List.range NUM_DENTRY_PER_BLOCK).foldl (fun cur d =>
        if (fs.dentries blk d).name = comp then ((fs.dentries blk d).ino : Int) else cur)
        cur) (-1)
  go : List (List Char) → Int → Int
  | [], cur => if cur ≥ 0 then cur else -ENOENT
  | comp :: rest, cur =>
      if cur < 0 then -ENOENT
      else
        let inode := fs.inode_table cur.toNat
        if ¬ S_ISDIR inode.mode then -ENOTDIR
        else go rest (scanComponent fs inode comp)

/-- Post-loop tail of first_free_sequence: fold the final run into the
maximum, emit the maximum, then overwrite with the final run's first
needed blocks when the (off-by-one) length test passes. -/
def ffs_post (needed max_s max_e start fin : Int) : Int × Int :=
  let m := if fin - start > max_e - max_s then (start, fin - 1) else (max_s, max_e)
  if m.2 - m.1 ≥ needed then (start, start + needed - 1) else m

/-- Scanning loop of first_free_sequence over the bitmap bits, carrying
(max_s, max_e, start, end) exactly as the source does and returning early
when a zero run terminated by a 1 bit has length exactly needed. -/
def ffs_go (needed : Int) : List Bool → Int → Int → Int → Int → Int × Int
  | [], max_s, max_e, start, fin => ffs_post needed max_s max_e start fin
  | b :: rest, max_s, max_e, start, fin =>
      if b then
        if fin - start == needed then (start, fin)
        else
          let m := if fin - start > max_e - max_s then (start, fin - 1) else (max_s, max_e)
          ffs_go needed rest m.1 m.2 (fin + 1) (fin + 1)
      else ffs_go needed rest max_s max_e start (fin + 1)

/-- first_free_sequence (fs_utils.c): look for a free run for needed
blocks; the returned tuple is used by callers as an inclusive block range
[fst, snd]. -/
def first_free_sequence (needed : Int) (bm : List Bool) : Int × Int :=
  ffs_go needed bm 0 0 0 0

/-- tail_length (fs_utils.c): number of consecutive free blocks starting
at bit start. -/
def tail_length (start : Nat) (bm : List Bool) : Nat :=
  ((bm.drop start).takeWhile (fun b => b = false)).length

/-- update_last_extent (fs_utils.c): mark [start, start+count) in the
bitmap; when the inode is on its 11th extent allocate the indirect extent
block (one block via first_free_sequence on the just-marked bitmap);
then rewrite the record of the last extent and charge the free-block
counter with the count delta. -/
def update_last_extent (ino : Nat) (start count : Int) (fs : FsState) : FsState :=
  let fs1 := mapBitmap (fun bm => markRange bm start count) fs
  let fs2 :=
    if (fs.inode_table ino).num_extents = A1FS_NUM_DIRECT_EXTENT + 1 then
      let t := first_free_sequence 1 fs1.d_bitmap
      let fs2a := adjustFreeDblocks (-1) (mapBitmap (fun bm => setBit bm t.1.toNat) fs1)
      setInode ino { fs2a.inode_table ino with indirect_extent_blk := u32i t.1 } fs2a
    else fs1
  let inode2 := fs2.inode_table ino
  let ext := get_extent inode2 (inode2.num_extents - 1)
  let count_additional : Int := if ext.count ≠ 0 then count - (ext.count : Int) else count
  let fs3 := setInode ino
    { inode2 with extents := fun k =>
        if k = inode2.num_extents - 1 then { start := u32i start, count := u32i count }
        else inode2.extents k } fs2
  adjustFreeDblocks (-count_additional) fs3

/-- While loop of allocate_data_blocks (fs_utils.c): repeatedly take the
run first_free_sequence offers, append it as a new extent, and stop with
ENOSPC only at the 512-extent cap.  fuel bounds the iteration count; the
concrete evaluations below never exhaust it. -/
def alloc_loop (ino : Nat) (fuel : Nat) (remainder : Int) (fs : FsState) : Int × FsState :=
  match fuel with
  | 0 => (-ENOSPC, fs)
  | fuel' + 1 =>
    if remainder > 0 then
      let t := first_free_sequence remainder fs.d_bitmap
      let remainder' := remainder - (t.2 - t.1 + 1)
      let inode := fs.inode_table ino
      if inode.num_extents = 512 then (-ENOSPC, fs)
      else
        let fs1 := setInode ino { inode with num_extents := inode.num_extents + 1 } fs
        let fs2 := update_last_extent ino t.1 (t.2 - t.1 + 1) fs1
        alloc_loop ino fuel' remainder' fs2
    else (0, fs)

/-- allocate_data_blocks (fs_utils.c): grow the inode's allocation so that
size more bytes fit.  The opening subtraction of the last block's used
bytes is uint64_t arithmetic (it wraps below zero), the Ceil result is
assigned to a uint32_t, and a successful tail extension does not reduce
remainder, all exactly as in the source. -/
def allocate_data_blocks (ino : Nat) (size : Nat) (fuel : Nat) (fs : FsState) : Int × FsState :=
  let inode := fs.inode_table ino
  let size1 : Nat :=
    if inode.size % A1FS_BLOCK_SIZE ≠ 0 then
      u64i ((size : Int) - (inode.size % A1FS_BLOCK_SIZE : Nat))
    else size
  let blks_needed : Nat := u32i (ceilNat (u64i ((size1 : Int) + (A1FS_BLOCK_SIZE - 1))) A1FS_BLOCK_SIZE)
  if blks_needed = 0 then (0, fs)
  else if fs.superblock.num_free_dblocks < blks_needed then (-ENOSPC, fs)
  else
    let remainder : Int := blks_needed
    let step : Int × FsState :=
      if inode.num_extents ≠ 0 then
        let last := get_extent inode (inode.num_extents - 1)
        let room := tail_length (last.start + last.count) fs.d_bitmap
        if room ≠ 0 then
          if room ≥ blks_needed then
            let extEnd : Int := (last.start + last.count : Nat) + (blks_needed : Int) - 1
            (remainder, update_last_extent ino (last.start : Int) (extEnd - (last.start : Int) + 1) fs)
          else
            let remainder2 : Int := (blks_needed : Int) - (room : Int)
            let extEnd : Int := (last.start + last.count : Nat) + (blks_needed : Int) - remainder2 - 1
            (remainder2, update_last_extent ino (last.start : Int) (extEnd - (last.start : Int) + 1) fs)
        else (remainder, fs)
      else (remainder, fs)
    alloc_loop ino fuel step.1 step.2

/-- Split a path at its last separator, as add_dir_entry and
remove_dir_entry do with strrchr: the tail is the leaf name and the head
is the parent path, which collapses to the root when the last separator
is the leading one. -/
def splitLast (path : List Char) : List Char × List Char :=
  let nameRev := path.reverse.takeWhile (fun c => c ≠ '/')
  let parent := path.take (path.length - nameRev.length - 1)
  (if parent = [] then ['/'] else parent, nameRev.reverse)

/-- First empty directory-entry slot over the inode's blocks in file
order, as the scan loop of add_dir_entry finds it. -/
def findEmptySlot (blocks : List Nat) (fs : FsState) : Option (Nat × Nat) :=
  blocks.findSome? (fun blk =>
    (List.range NUM_DENTRY_PER_BLOCK).findSome? (fun s =>
      if (fs.dentries blk s).name = [] then some (blk, s) else none))

/-- add_dir_entry (fs_utils.c): create one entry plus its inode.  The
parent's link count is raised for a new subdirectory before the slot scan,
and the ENOSPC return after a failed growth does not undo that raise. -/
def add_dir_entry (path : List Char) (mode links : Nat) (now fuel : Nat)
    (fs : FsState) : Int × FsState :=
  if fs.superblock.num_free_inodes = 0 then (-ENOSPC, fs)
  else
    let pp := splitLast path
    if pp.2.length > A1FS_NAME_MAX then (-ENAMETOOLONG, fs)
    else
      let parIdx := (path_lookup pp.1 fs).toNat
      let par := fs.inode_table parIdx
      let fs1 := if S_ISDIR mode then setInode parIdx { par with links := par.links + 1 } fs else fs
      let par1 := fs1.inode_table parIdx
      match findEmptySlot (inodeBlocks par1) fs1 with
      | some bs =>
          let ino := u32i (find_empty_inode fs1)
          let fs2 := setDentry bs.1 bs.2 { ino := ino, name := pp.2 } fs1
          (0, init_inode ino mode links now fs2)
      | none =>
          let r := allocate_data_blocks parIdx A1FS_BLOCK_SIZE fuel fs1
          if r.1 ≠ 0 then (-ENOSPC, r.2)
          else
            let par2 := r.2.inode_table parIdx
            let fs3 := setInode parIdx { par2 with size := par2.size + A1FS_BLOCK_SIZE } r.2
            let par3 := fs3.inode_table parIdx
            let lastExt := get_extent par3 (par3.num_extents - 1)
            let blk := lastExt.start + lastExt.count - 1
            let ino := u32i (find_empty_inode fs3)
            let fs4 := setDentry blk 0 { ino := ino, name := pp.2 } fs3
            (0, init_inode ino mode links now fs4)

/-- Zero the first name byte of every entry matching the leaf name, over
the parent's blocks in file order (the scan loop of remove_dir_entry). -/
def clearMatchingDentries (blocks : List Nat) (nm : List Char) (fs : FsState) : FsState :=
  blocks.foldl (fun acc blk =>
    (List.range NUM_DENTRY_PER_BLOCK).foldl (fun acc2 s =>
      if (acc2.dentries blk s).name = nm then
        setDentry blk s { acc2.dentries blk s with name := [] } acc2
      else acc2) acc) fs

/-- Deallocation loop of remove_dir_entry: for every block of every extent
of the dead inode, clear its bit, and add the whole extent count to the
free counter once per block (as the source does, inside the inner loop). -/
def removeDeallocate (idx : Nat) (fs : FsState) : FsState :=
  let inode := fs.inode_table idx
  (List.range inode.num_extents).foldl (fun acc i =>
    let ext := get_extent inode i
    (List.range ext.count).foldl (fun acc2 j =>
      adjustFreeDblocks (ext.count : Int) (mapBitmap (fun bm => clearBit bm (ext.start + j)) acc2))
      acc) fs

/-- remove_dir_entry (fs_utils.c): drop the links, zero the matching
entries in the parent, and when the target's link count reaches 0 credit
one free inode and run the deallocation loop over its extents (the
indirect extent block is never released here). -/
def remove_dir_entry (path : List Char) (fs : FsState) : FsState :=
  let pp := splitLast path
  let parIdx := (path_lookup pp.1 fs).toNat
  let idx := (path_lookup path fs).toNat
  let inode := fs.inode_table idx
  let fs1 :=
    if S_ISDIR inode.mode then
      let fsa := setInode idx { inode with links := u32i ((inode.links : Int) - 1) } fs
      let par := fsa.inode_table parIdx
      setInode parIdx { par with links := u32i ((par.links : Int) - 1) } fsa
    else fs
  let ino1 := fs1.inode_table idx
  let fs2 := setInode idx { ino1 with links := u32i ((ino1.links : Int) - 1) } fs1
  let fs3 := clearMatchingDentries (inodeBlocks (fs2.inode_table parIdx)) pp.2 fs2
  if (fs3.inode_table idx).links = 0 then
    let fs4 := { fs3 with superblock :=
      { fs3.superblock with
        num_free_inodes := u32i ((fs3.superblock.num_free_inodes : Int) + 1) } }
    removeDeallocate idx fs4
  else fs3

/-- Loop of copy_between_buf_and_fs (fs_utils.c) over the inode's blocks:
cur_offset tracks the file position of the block at hand; whenever
cur_offset - offset <= 4096 the source copies min(4096, size) bytes at
byte address block * 4096 + (offset - cur_offset when positive), an
address that can run past the block into the following data-region bytes,
exactly as the memcpy on the mapped image does. -/
def copyGo (tofs : Bool) (offset : Int) :
    List Nat → Int → Nat → Nat → (Nat → Nat) → FsState → Nat × (Nat → Nat) × FsState
  | [], _, _, written, buf, fs => (written, buf, fs)
  | blk :: rest, cur_offset, size, written, buf, fs =>
      if size = 0 then (written, buf, fs)
      else
        if cur_offset - offset ≤ (A1FS_BLOCK_SIZE : Int) then
          let ow : Int := if offset > cur_offset then offset - cur_offset else 0
          let bytes := min A1FS_BLOCK_SIZE size
          let base : Int := (blk * A1FS_BLOCK_SIZE : Nat) + ow
          if tofs then
            let fs1 := { fs with data := fun a =>
              (if base ≤ a ∧ a < base + (bytes : Int) then buf (written + (a - base).toNat)
               else fs.data a) }
            copyGo tofs offset rest (cur_offset + (A1FS_BLOCK_SIZE : Nat)) (size - bytes)
              (written + bytes) buf fs1
          else
            let buf1 := fun a =>
              if written ≤ a ∧ a < written + bytes then fs.data (base + ((a - written : Nat) : Int))
              else buf a
            copyGo tofs offset rest (cur_offset + (A1FS_BLOCK_SIZE : Nat)) (size - bytes)
              (written + bytes) buf1 fs
        else copyGo tofs offset rest (cur_offset + (A1FS_BLOCK_SIZE : Nat)) size written buf fs

/-- copy_between_buf_and_fs (fs_utils.c): move size bytes between the
caller's buffer and the inode's data, returning the byte count moved, the
resulting buffer and the resulting image. -/
def copy_between_buf_and_fs (ino : Nat) (buf : Nat → Nat) (size : Nat) (offset : Int)
    (tofs : Bool) (fs : FsState) : Nat × (Nat → Nat) × FsState :=
  copyGo tofs offset (inodeBlocks (fs.inode_table ino)) 0 size 0 buf fs

/-- a1fs_read (a1fs.c): zero the buffer, resolve the path, and copy from
the image into the buffer; the return value is the copy's byte count. -/
def a1fs_read (path : List Char) (size : Nat) (offset : Int) (fs : FsState) :
    Int × (Nat → Nat) :=
  let idx := (path_lookup path fs).toNat
  let r := copy_between_buf_and_fs idx (fun _ => 0) size offset false fs
  ((r.1 : Int), r.2.1)

/-- a1fs_write (a1fs.c): stamp mtime, fill any hole past the current end
with zeros (growing first), grow for the write itself, advance the size,
then copy the caller's bytes in. -/
def a1fs_write (path : List Char) (buf : Nat → Nat) (size : Nat) (offset : Int)
    (now fuel : Nat) (fs : FsState) : Int × FsState :=
  let idx := (path_lookup path fs).toNat
  let fs0 := setInode idx { fs.inode_table idx with mtime := now } fs
  let ino0 := fs0.inode_table idx
  let step1 : Int × FsState :=
    if offset > (ino0.size : Int) then
      let additional := (offset - (ino0.size : Int)).toNat
      let r := allocate_data_blocks idx additional fuel fs0
      if r.1 < 0 then (-ENOSPC, r.2)
      else
        let c := copy_between_buf_and_fs idx (fun _ => 0) additional
          ((r.2.inode_table idx).size : Int) true r.2
        let fsb := c.2.2
        (0, setInode idx
          { fsb.inode_table idx with size := (fsb.inode_table idx).size + additional } fsb)
    else (0, fs0)
  if step1.1 < 0 then step1
  else
    let fs3 := step1.2
    let r2 := allocate_data_blocks idx size fuel fs3
    if r2.1 < 0 then (-ENOSPC, r2.2)
    else
      let fs4 := setInode idx
        { r2.2.inode_table idx with size := (r2.2.inode_table idx).size + size } r2.2
      let c2 := copy_between_buf_and_fs idx buf size offset true fs4
      ((c2.1 : Int), c2.2.2)

/-- One block step of the shrink loop of a1fs_truncate (a1fs.c).  The
carried triple is (image, local num_extents, blk_idx).  A block is freed
when blk_idx * 4096 exceeds the new size (strictly); when an extent's
count reaches 0 the local extent counter drops, and when that counter
still equals 10 the block named by indirect_extent_blk is also freed. -/
def truncShrinkBlock (idx : Nat) (size : Nat) (i : Nat) (st : FsState × Nat × Nat)
    (b : Nat) : FsState × Nat × Nat :=
  let fs := st.1
  let numExt := st.2.1
  let blkIdx := st.2.2
  if blkIdx * A1FS_BLOCK_SIZE > size then
    let fs1 := adjustFreeDblocks 1 (mapBitmap (fun bm => clearBit bm b) fs)
    let inode := fs1.inode_table idx
    let ext := get_extent inode i
    let ext1 : A1fsExtent := { ext with count := ext.count - 1 }
    let fs2 := setInode idx
      { inode with extents := fun k => if k = i then ext1 else inode.extents k } fs1
    if ext1.count = 0 then
      if numExt = A1FS_NUM_DIRECT_EXTENT then
        let indir := (fs2.inode_table idx).indirect_extent_blk
        let fs3 := adjustFreeDblocks 1 (mapBitmap (fun bm => clearBit bm indir) fs2)
        (fs3, numExt - 1, blkIdx + 1)
      else (fs2, numExt - 1, blkIdx + 1)
    else (fs2, numExt, blkIdx + 1)
  else (fs, numExt, blkIdx + 1)

/-- Shrink branch of a1fs_truncate (a1fs.c): walk the extents, freeing
every block whose index times the block size strictly exceeds the new
size, then store the surviving extent count. -/
def truncShrink (idx : Nat) (size : Nat) (fs : FsState) : FsState :=
  let inode := fs.inode_table idx
  let st := (List.range inode.num_extents).foldl (fun acc i =>
      let cur := get_extent (acc.1.inode_table idx) i
      (List.range cur.count).foldl (fun acc2 j => truncShrinkBlock idx size i acc2 (cur.start + j))
        acc)
    (fs, inode.num_extents, 0)
  setInode idx { st.1.inode_table idx with num_extents := st.2.1 } st.1

/-- a1fs_truncate (a1fs.c): stamp mtime, extend (allocate then zero-fill)
or shrink, and finally store the new size in the inode. -/
def a1fs_truncate (path : List Char) (size : Nat) (now fuel : Nat) (fs : FsState) :
    Int × FsState :=
  let idx := (path_lookup path fs).toNat
  let inode0 := fs.inode_table idx
  let fs0 := setInode idx { inode0 with mtime := now } fs
  if size > inode0.size then
    let additional := size - inode0.size
    let r := allocate_data_blocks idx additional fuel fs0
    if r.1 < 0 then (-ENOSPC, r.2)
    else
      let c := copy_between_buf_and_fs idx (fun _ => 0) additional
        ((r.2.inode_table idx).size : Int) true r.2
      let fs2 := c.2.2
      (0, setInode idx { fs2.inode_table idx with size := size } fs2)
  else if size < inode0.size then
    let fs2 := truncShrink idx size fs0
    (0, setInode idx { fs2.inode_table idx with size := size } fs2)
  else (0, setInode idx { fs0.inode_table idx with size := size } fs0)

/-- The statvfs fields a1fs_statfs fills (the ignored ones are omitted). -/
structure Statvfs where
  f_bsize : Nat
  f_frsize : Nat
  f_blocks : Nat
  f_bfree : Nat
  f_bavail : Nat
  f_files : Nat
  f_ffree : Nat
  f_favail : Nat
  f_namemax : Nat
deriving DecidableEq

/-- a1fs_statfs (a1fs.c): fill the statistics view from the superblock. -/
def a1fs_statfs (fs : FsState) : Statvfs :=
  { f_bsize := A1FS_BLOCK_SIZE
    f_frsize := A1FS_BLOCK_SIZE
    f_blocks := fs.superblock.size / A1FS_BLOCK_SIZE
    f_bfree := fs.superblock.num_free_dblocks
    f_bavail := fs.superblock.num_free_dblocks
    f_files := fs.superblock.num_inodes
    f_ffree := fs.superblock.num_free_inodes
    f_favail := fs.superblock.num_free_inodes
    f_namemax := A1FS_NAME_MAX }

/-- a1fs_mkdir (a1fs.c): add_dir_entry with the directory bit and 2 links. -/
def a1fs_mkdir (path : List Char) (mode : Nat) (now fuel : Nat) (fs : FsState) :
    Int × FsState :=
  add_dir_entry path (mode ||| S_IFDIR) 2 now fuel fs

/-- a1fs_create (a1fs.c): add_dir_entry with 1 link. -/
def a1fs_create (path : List Char) (mode : Nat) (now fuel : Nat) (fs : FsState) :
    Int × FsState :=
  add_dir_entry path mode 1 now fuel fs

/-- a1fs_unlink (a1fs.c): remove_dir_entry, then report success. -/
def a1fs_unlink (path : List Char) (fs : FsState) : Int × FsState :=
  (0, remove_dir_entry path fs)

/-- mkfs (mkfs.c): format an image of the given byte size with n_inodes
inode slots: compute the layout, write the superblock, zero the inode
table and bitmap, and create the root directory via init_inode.  The
image size being a positive multiple of the block size is enforced by the
mapping collaborator before mkfs runs. -/
def mkfs (size n_inodes now : Nat) : Option FsState :=
  let num_total_blocks := size / A1FS_BLOCK_SIZE
  let num_inode_blocks := ceilNat (n_inodes * SIZEOF_A1FS_INODE) A1FS_BLOCK_SIZE
  if num_inode_blocks = 0 then none
  else
    let num_data_blocks := num_total_blocks - num_inode_blocks - 2
    let num_data_bitmap_blocks := ceilNat num_data_blocks (8 * A1FS_BLOCK_SIZE)
    if num_total_blocks < num_inode_blocks + num_data_bitmap_blocks + 2 then none
    else
      let sb : A1fsSuperblock :=
        { magic := A1FS_MAGIC
          size := size
          num_inodes := n_inodes
          num_free_inodes := n_inodes
          num_tot_dblocks := num_data_blocks - num_data_bitmap_blocks
          num_free_dblocks := num_data_blocks - num_data_bitmap_blocks
          data_bitmap := 2
          inode_table := 2 + num_data_bitmap_blocks
          data_blk := 2 + num_data_bitmap_blocks + num_inode_blocks }
      let fs : FsState :=
        { superblock := sb
          d_bitmap := List.replicate sb.num_tot_dblocks false
          inode_table := fun _ => {}
          data := fun _ => 0
          dentries := fun _ _ => {} }
      some (init_inode 0 (S_IFDIR ||| 0o777) 2 now fs)

/-- A consistent image for exercising entry removal: 8 data blocks; the
root directory (inode 0) owns block 2 and holds one entry for the regular
file f (inode 1), which owns one extent of two blocks (0 and 1); blocks
0..2 are marked, 5 are free; 2 of the 4 inode slots are free. -/
def fsRemove : FsState :=
  { superblock :=
      { magic := A1FS_MAGIC, size := 65536, num_inodes := 4, num_free_inodes := 2,
        num_tot_dblocks := 8, num_free_dblocks := 5,
        data_bitmap := 2, inode_table := 3, data_blk := 5 }
    d_bitmap := [true, true, true, false, false, false, false, false]
    inode_table := fun i =>
      if i = 0 then
        { mode := S_IFDIR ||| 0o755, links := 2, size := 4096, num_extents := 1,
          extents := fun k => if k = 0 then { start := 2, count := 1 } else {} }
      else if i = 1 then
        { mode := S_IFREG ||| 0o644, links := 1, size := 8192, num_extents := 1,
          extents := fun k => if k = 0 then { start := 0, count := 2 } else {} }
      else {}
    data := fun _ => 0
    dentries := fun b s =>
      if b = 2 ∧ s = 0 then { ino := 1, name := ['f'] } else {} }

/-- An image like fsRemove but whose file is named g, for exercising the
shrink branch of truncate on a two-block single-extent file. -/
def fsTrunc : FsState :=
  { superblock :=
      { magic := A1FS_MAGIC, size := 65536, num_inodes := 4, num_free_inodes := 2,
        num_tot_dblocks := 8, num_free_dblocks := 5,
        data_bitmap := 2, inode_table := 3, data_blk := 5 }
    d_bitmap := [true, true, true, false, false, false, false, false]
    inode_table := fun i =>
      if i = 0 then
        { mode := S_IFDIR ||| 0o755, links := 2, size := 4096, num_extents := 1,
          extents := fun k => if k = 0 then { start := 2, count := 1 } else {} }
      else if i = 1 then
        { mode := S_IFREG ||| 0o644, links := 1, size := 8192, num_extents := 1,
          extents := fun k => if k = 0 then { start := 0, count := 2 } else {} }
      else {}
    data := fun _ => 0
    dentries := fun b s =>
      if b = 2 ∧ s = 0 then { ino := 1, name := ['g'] } else {} }

/-- An image whose file f (inode 1) has size 5 and one data block, for
reading a range that starts past the end of the file. -/
def fsReadPast : FsState :=
  { superblock :=
      { magic := A1FS_MAGIC, size := 65536, num_inodes := 4, num_free_inodes := 2,
        num_tot_dblocks := 8, num_free_dblocks := 6,
        data_bitmap := 2, inode_table := 3, data_blk := 5 }
    d_bitmap := [true, true, false, false, false, false, false, false]
    inode_table := fun i =>
      if i = 0 then
        { mode := S_IFDIR ||| 0o755, links := 2, size := 4096, num_extents := 1,
          extents := fun k => if k = 0 then { start := 1, count := 1 } else {} }
      else if i = 1 then
        { mode := S_IFREG ||| 0o644, links := 1, size := 5, num_extents := 1,
          extents := fun k => if k = 0 then { start := 0, count := 1 } else {} }
      else {}
    data := fun _ => 0
    dentries := fun b s =>
      if b = 1 ∧ s = 0 then { ino := 1, name := ['f'] } else {} }

/-- An image whose file f (inode 1) is fragmented: its two file blocks
live at data blocks 0 and 2, while data block 1 belongs to the file g
(inode 2) and holds the nonzero byte 42 at its first position.  Every
byte of f's own blocks is zero. -/
def fsFrag : FsState :=
  { superblock :=
      { magic := A1FS_MAGIC, size := 65536, num_inodes := 4, num_free_inodes := 1,
        num_tot_dblocks := 8, num_free_dblocks := 4,
        data_bitmap := 2, inode_table := 3, data_blk := 5 }
    d_bitmap := [true, true, true, true, false, false, false, false]
    inode_table := fun i =>
      if i = 0 then
        { mode := S_IFDIR ||| 0o755, links := 2, size := 4096, num_extents := 1,
          extents := fun k => if k = 0 then { start := 3, count := 1 } else {} }
      else if i = 1 then
        { mode := S_IFREG ||| 0o644, links := 1, size := 8192, num_extents := 2,
          extents := fun k =>
            if k = 0 then { start := 0, count := 1 }
            else if k = 1 then { start := 2, count := 1 } else {} }
      else if i = 2 then
        { mode := S_IFREG ||| 0o644, links := 1, size := 4096, num_extents := 1,
          extents := fun k => if k = 0 then { start := 1, count := 1 } else {} }
      else {}
    data := fun a => if a = 4096 then 42 else 0
    dentries := fun b s =>
      if b = 3 ∧ s = 0 then { ino := 1, name := ['f'] }
      else if b = 3 ∧ s = 1 then { ino := 2, name := ['g'] }
      else {} }

/-- An image whose root directory block is completely full (all 16 entry
slots occupied) while no data block is free, so that adding an entry must
grow the directory and fail with ENOSPC. -/
def fsFullDir : FsState :=
  { superblock :=
      { magic := A1FS_MAGIC, size := 32768, num_inodes := 4, num_free_inodes := 3,
        num_tot_dblocks := 1, num_free_dblocks := 0,
        data_bitmap := 2, inode_table := 3, data_blk := 5 }
    d_bitmap := [true]
    inode_table := fun i =>
      if i = 0 then
        { mode := S_IFDIR ||| 0o755, links := 2, size := 4096, num_extents := 1,
          extents := fun k => if k = 0 then { start := 0, count := 1 } else {} }
      else {}
    data := fun _ => 0
    dentries := fun b s =>
      if b = 0 ∧ s < NUM_DENTRY_PER_BLOCK then { ino := 0, name := [Char.ofNat (65 + s)] }
      else {} }

/-- Replacing an inode slot with a record of the same size leaves every
slot's size unchanged. -/
theorem setInode_size (i : Nat) (v : A1fsInode) (fs : FsState) (j : Nat)
    (h : v.size = (fs.inode_table i).size) :
    ((setInode i v fs).inode_table j).size = (fs.inode_table j).size := by
  by_cases hj : j = i <;> simp [setInode, hj, h]

/-- update_last_extent rewrites bitmap bits, free counters, extent records
and the indirect block number, but no inode's size field. -/
theorem update_last_extent_size (ino : Nat) (s c : Int) (fs : FsState) (j : Nat) :
    ((update_last_extent ino s c fs).inode_table j).size = (fs.inode_table j).size := by
  unfold update_last_extent
  by_cases h : (fs.inode_table ino).num_extents = A1FS_NUM_DIRECT_EXTENT + 1 <;>
    by_cases hj : j = ino <;>
      simp [h, hj, setInode, mapBitmap, adjustFreeDblocks]

/-- The extent-appending loop of allocate_data_blocks never touches any
inode's size field, for every fuel value. -/
theorem alloc_loop_size (ino : Nat) (fuel : Nat) :
    ∀ (r : Int) (fs : FsState) (j : Nat),
      ((alloc_loop ino fuel r fs).2.inode_table j).size = (fs.inode_table j).size := by
  induction fuel with
  | zero => intro r fs j; rfl
  | succ n ih =>
      intro r fs j
      unfold alloc_loop
      by_cases hr : r > 0
      · by_cases h5 : (fs.inode_table ino).num_extents = 512
        · simp [hr, h5]
        · simp only [hr, h5, if_true, if_false, if_pos, if_neg, not_false_iff]
          rw [ih, update_last_extent_size]
          by_cases hj : j = ino <;> simp [setInode, hj]
      · simp [hr]

/-- C9: for every inode, every requested byte count and every image,
grow_inode (allocate_data_blocks, including its update_last_extent calls)
leaves the size field of every inode-table slot unchanged, whether it
returns ok or ENOSPC, and for every loop fuel. -/
theorem c9_allocate_preserves_inode_size (ino size fuel : Nat) (fs : FsState) (j : Nat) :
    ((allocate_data_blocks ino size fuel fs).2.inode_table j).size
      = (fs.inode_table j).size := by
  unfold allocate_data_blocks
  dsimp only
  repeat' split
  all_goals
    first
      | rfl
      | (rw [alloc_loop_size]
         all_goals rw [update_last_extent_size])

/-- C1: the P1 accounting invariant holds at fsRemove and the unlink of
the two-block file f succeeds, yet the invariant is false afterwards: the
deallocation loop of remove_dir_entry clears 2 bitmap bits but credits
num_free_dblocks by the extent count once per block (4 in total), so the
zero-bit count (7) and the free counter (9) disagree. -/
theorem c1_p1_broken_by_unlink :
    p1_invariant fsRemove = true ∧
    (a1fs_unlink ['/', 'f'] fsRemove).1 = 0 ∧
    p1_invariant (a1fs_unlink ['/', 'f'] fsRemove).2 = false := by
  decide

/-- C2: on the bitmap 0,0,1,0 with 2 blocks needed, the first maximal
zero run of length at least 2 consists of blocks 0 and 1, so the claim
requires the inclusive tuple (0, 1); first_free_sequence instead returns
(0, 2), a three-block range whose last block (bit 2) is allocated. -/
theorem c2_ffs_returns_oversized_range :
    first_free_sequence 2 [false, false, true, false] = (0, 2) ∧
    [false, false, true, false].getD 2 false = true := by
  decide

/-- C3: on fsFrag the file f is fragmented (file blocks at data blocks 0
and 2) and all of f's own bytes are zero, with the neighbouring file g
holding 42 at data block 1.  With no write to f at all, reading 1 byte of
f at offset 4096 returns count 1 with byte 42 - the copy loop addresses
first-extent-block * 4096 + offset, crossing into g's block - although
file position 4096 of f was never written and f's stored byte there
(extent 1, data address 8192) is zero.  This refutes the claim that a
never-written position reads as zero regardless of extent layout. -/
theorem c3_read_unwritten_position_returns_other_files_byte :
    (a1fs_read ['/', 'f'] 1 4096 fsFrag).1 = 1 ∧
    (a1fs_read ['/', 'f'] 1 4096 fsFrag).2 0 = 42 ∧
    fsFrag.data ((((fsFrag.inode_table 1).extents 1).start * A1FS_BLOCK_SIZE : Nat)) = 0 := by
  decide

/-- C4: on fsReadPast the file f has size 5, yet reading 1 byte at offset
10 - a range entirely past inode.size - returns 1, not the 0 the claim
requires: copy_between_buf_and_fs never consults inode.size. -/
theorem c4_read_entirely_past_eof_returns_nonzero :
    (fsReadPast.inode_table 1).size = 5 ∧
    (a1fs_read ['/', 'f'] 1 10 fsReadPast).1 = 1 := by
  decide

/-- C5: truncating the 8192-byte two-block file g down to 4096 must free
exactly the block whose file-byte start is 4096 (file block 1).  The
source frees a block only when blk_idx * 4096 strictly exceeds the new
size, so nothing is freed: the free counter, the bitmap bit of the
block's data block (bit 1) and the extent count are all unchanged, while
the size is set to 4096. -/
theorem c5_truncate_shrink_keeps_boundary_block :
    (fsTrunc.inode_table 1).size = 8192 ∧
    (a1fs_truncate ['/', 'g'] 4096 7 600 fsTrunc).1 = 0 ∧
    (a1fs_truncate ['/', 'g'] 4096 7 600 fsTrunc).2.superblock.num_free_dblocks
      = fsTrunc.superblock.num_free_dblocks ∧
    (a1fs_truncate ['/', 'g'] 4096 7 600 fsTrunc).2.d_bitmap.getD 1 false = true ∧
    (((a1fs_truncate ['/', 'g'] 4096 7 600 fsTrunc).2.inode_table 1).extents 0).count = 2 ∧
    ((a1fs_truncate ['/', 'g'] 4096 7 600 fsTrunc).2.inode_table 1).size = 4096 := by
  decide

/-- C6: unlinking the file f of fsRemove, whose single extent owns 2
blocks, drives its link count to 0; the claim requires num_free_dblocks
to rise by exactly those 2 blocks (5 to 7), but the source adds the
extent count inside the per-block loop, raising it by 4 (5 to 9). -/
theorem c6_remove_credits_count_per_block :
    fsRemove.superblock.num_free_dblocks = 5 ∧
    ((fsRemove.inode_table 1).extents 0).count = 2 ∧
    ((a1fs_unlink ['/', 'f'] fsRemove).2.inode_table 1).links = 0 ∧
    (a1fs_unlink ['/', 'f'] fsRemove).2.superblock.num_free_dblocks = 9 ∧
    countZeroBits (a1fs_unlink ['/', 'f'] fsRemove).2.d_bitmap = 7 := by
  decide

/-- C7: on fsFullDir every entry slot of the root directory is occupied
and no data block is free, so mkdir of /q raises the parent's link count
(step 4), fails to grow the directory and returns ENOSPC - with the
parent's link count left at 3 instead of being restored to 2, so the
state is not as it was before the call. -/
theorem c7_mkdir_enospc_keeps_raised_parent_links :
    fsFullDir.superblock.num_free_dblocks = 0 ∧
    (fsFullDir.inode_table 0).links = 2 ∧
    (a1fs_mkdir ['/', 'q'] 0o755 7 600 fsFullDir).1 = -ENOSPC ∧
    ((a1fs_mkdir ['/', 'q'] 0o755 7 600 fsFullDir).2.inode_table 0).links = 3 := by
  decide

/-- C8 counterexample: on the freshly formatted 1 MiB image with 32
inodes, statfs reports f_namemax = 252 (the source stores A1FS_NAME_MAX,
the 252-byte name bound including the terminator), not the claimed
NAME_MAX - 1 = 251. -/
theorem c8_statfs_namemax_counterexample :
    (mkfs 1048576 32 0).map (fun fs => (a1fs_statfs fs).f_namemax) = some 252 ∧
    (252 : Nat) ≠ 251 := by
  decide

/-- C8 amended: statfs fills the statistics view with block size 4096,
total blocks image-size / 4096, free-and-available blocks equal to
superblock.num_free_dblocks, inode totals from the superblock, and
maximum name length NAME_MAX = 252; on the freshly formatted 1 MiB image
with 32 inodes it reports f_bsize = 4096, f_blocks = 256, f_files = 32,
f_ffree = 31 and f_namemax = 252. -/
theorem c8_statfs_fresh_image :
    (mkfs 1048576 32 0).map a1fs_statfs = some
      { f_bsize := 4096, f_frsize := 4096, f_blocks := 256, f_bfree := 251,
        f_bavail := 251, f_files := 32, f_ffree := 31, f_favail := 31,
        f_namemax := 252 } := by
  decide

/-- C10: for every input path whose first character is not the separator,
path_lookup returns -ENOENT via its opening guard.  The source performs
no store to the image anywhere in path_lookup (it only copies the path
into a local buffer and reads the mapped views), so the model is a pure
reader and the image is unchanged by construction. -/
theorem c10_path_lookup_rejects_relative (path : List Char) (fs : FsState)
    (h : cstrHead path ≠ '/') : path_lookup path fs = -ENOENT := by
  unfold path_lookup
  rw [if_pos h]

/-- C10 witness: the relative path a is rejected on a concrete image. -/
theorem c10_path_lookup_rejects_relative_witness :
    cstrHead ['a'] ≠ '/' ∧ path_lookup ['a'] fsRemove = -ENOENT :=
  ⟨by decide, c10_path_lookup_rejects_relative ['a'] fsRemove (by decide)⟩
